import Mathlib

/-!
Verification of the Status Sync Client implemented in
`src/frontend/src/hooks/useExecutionStatus.ts`, with the data model taken
from `src/frontend/src/api/status.ts`.

Modelling conventions:
* JavaScript numbers carry no arithmetic in the verified properties and are
  modelled as `Int`; fields that can hold `null` or `undefined` at runtime
  are modelled as `Option`.
* The `useState` variables of the hook form `AppState`; the mutable refs of
  the connection layer (timers, reconnect counter, socket) form
  `ClientState`.
* The freshly generated `id` (`Date.now()`-`Math.random()`) and `timestamp`
  (`new Date()`) of a log entry come from the environment and are passed in
  as a `LogMeta` value.
* `JSON.parse` is modelled by `RawMessage`: `malformed` is the branch where
  it throws, `parsed` the branch where it yields an envelope.
-/

namespace ResearchAgent

/-- Mirrors `POLL_INTERVAL` (line 19 of useExecutionStatus.ts). -/
def POLL_INTERVAL : Nat := 2000

/-- Mirrors `WS_PING_INTERVAL` (line 20 of useExecutionStatus.ts). -/
def WS_PING_INTERVAL : Nat := 25000

/-- Mirrors `WS_RECONNECT_DELAY` (line 21 of useExecutionStatus.ts). -/
def WS_RECONNECT_DELAY : Nat := 3000

/-- Mirrors `WS_MAX_RECONNECT_ATTEMPTS` (line 22 of useExecutionStatus.ts). -/
def WS_MAX_RECONNECT_ATTEMPTS : Nat := 5

/-- Modelled from the spec: the Event Gateway's server-side idle timeout for
the push channel. The gateway implementation is not among the frontend
sources; the spec states "keep-alive ping interval < server idle timeout
(observed ratio ≈ 25s ping vs 30s server timeout)" and the source comment on
`WS_PING_INTERVAL` records "server timeout is 30s". -/
def SERVER_IDLE_TIMEOUT : Nat := 30000

/-- Mirrors the WebSocket API semantics of the detach path: `cleanup` calls
`WebSocket.close()` with no status code (line 230), and per RFC 6455 /
the WHATWG WebSocket API a close with no status code present yields a
`CloseEvent` whose `code` is 1005, not the clean-close code 1000. -/
def WS_CLOSE_NO_STATUS : Nat := 1005

/-- Mirrors `PlanTask` in src/frontend/src/api/status.ts. -/
structure PlanTask where
  id : Int
  description : String
  assigned_agent : String
  status : String
  dependencies : Option (List Int) := none
  deriving DecidableEq

/-- Mirrors the inline `scope` object type of `Plan` in status.ts. -/
structure PlanScope where
  scope : String
  target_pages : Int
  target_word_count : Int
  deriving DecidableEq

/-- Mirrors `Plan` in src/frontend/src/api/status.ts. -/
structure Plan where
  main_goal : String
  tasks : List PlanTask
  scope : Option PlanScope := none
  deriving DecidableEq

/-- Mirrors `ExecutionStatus` in src/frontend/src/api/status.ts. The TS
interface declares `progress: number`, but the `agent.progress` handler
stores `data.data.progress as number`, which is `undefined` when the field
is absent, so the runtime value is modelled as `Option Int`; `active_agent`
is `string | null` and the same cast can likewise store `undefined`, both
modelled as `none`. -/
structure ExecutionStatus where
  session_id : String
  current_phase : String
  progress : Option Int
  active_agent : Option String
  active_tools : List String
  plan : Option Plan
  plan_approval_status : String
  plan_waiting_approval : Bool
  started_at : String
  updated_at : String
  completed_at : Option String
  error : Option String
  messages : List String
  phase_progress : List (String × Int)
  estimated_completion : Option String
  deriving DecidableEq

/-- Mirrors `ExecutionPhase` in src/frontend/src/api/status.ts. -/
structure ExecutionPhase where
  name : String
  key : String
  progress : Int
  weight : Int
  is_current : Bool
  is_completed : Bool
  status : String
  deriving DecidableEq

/-- Mirrors `SessionProgress` in src/frontend/src/api/status.ts. -/
structure SessionProgress where
  overall_progress : Int
  current_phase : String
  phases : List ExecutionPhase
  started_at : String
  estimated_completion : Option String
  deriving DecidableEq

/-- Mirrors `ToolExecution` in src/frontend/src/api/status.ts. -/
structure ToolExecution where
  tool : String
  success : Bool
  started_at : String
  completed_at : Option String
  deriving DecidableEq

/-- Mirrors `AgentExecution` in src/frontend/src/api/status.ts. -/
structure AgentExecution where
  agent : String
  started_at : String
  completed_at : Option String
  status : String
  progress : Option Int := none
  tools_used : List ToolExecution
  result_summary : Option String := none
  deriving DecidableEq

/-- Mirrors the `type` union of `ActivityLogEntry` (line 34 of
useExecutionStatus.ts): "phase" | "agent" | "tool" | "message" | "error" |
"complete". -/
inductive LogType where
  | phase
  | agent
  | tool
  | message
  | error
  | complete
  deriving DecidableEq

/-- Mirrors the typed view of the `data: Record<string, unknown>` payload of
`WebSocketEvent`: exactly the dynamic fields the handler reads
(`data.data.phase`, `.agent`, `.progress`, `.tool`, `.plan`, `.status`,
`.error`); an absent field is `none` (JS `undefined`). -/
structure WSEventData where
  phase : Option String := none
  agent : Option String := none
  progressValue : Option Int := none
  tool : Option String := none
  plan : Option Plan := none
  status : Option ExecutionStatus := none
  error : Option String := none
  deriving DecidableEq

/-- Mirrors `WebSocketEvent` (lines 24-29 of useExecutionStatus.ts). -/
structure WSEvent where
  type : String
  session_id : String
  data : WSEventData
  timestamp : String
  deriving DecidableEq

/-- Mirrors `ActivityLogEntry` (lines 31-37 of useExecutionStatus.ts);
`timestamp` (a JS `Date`) is modelled as the epoch value it wraps. -/
structure ActivityLogEntry where
  id : String
  timestamp : Nat
  entryType : LogType
  content : String
  details : Option WSEventData := none
  deriving DecidableEq

/-- The environment-supplied pieces of a fresh log entry: the generated `id`
string and the `new Date()` timestamp (line 72-73 of useExecutionStatus.ts). -/
structure LogMeta where
  id : String
  timestamp : Nat
  deriving DecidableEq

/-- The entry object `addLogEntry` builds (lines 70-74 of
useExecutionStatus.ts): the caller-supplied fields plus the generated id
and timestamp. -/
def mkLogEntry (meta : LogMeta) (t : LogType) (content : String)
    (details : Option WSEventData) : ActivityLogEntry :=
  { id := meta.id, timestamp := meta.timestamp, entryType := t,
    content := content, details := details }

/-- Mirrors `addLogEntry` (lines 68-77 of useExecutionStatus.ts): the new
entry is prepended and the previous list is truncated with
`prev.slice(0, 99)`. -/
def addLogEntry (meta : LogMeta) (t : LogType) (content : String)
    (details : Option WSEventData) (prev : List ActivityLogEntry) :
    List ActivityLogEntry :=
  mkLogEntry meta t content details :: prev.take 99

/-- One call to `addLogEntry`: the caller-supplied entry fields together with
the environment-generated metadata. -/
structure LogInput where
  meta : LogMeta
  entryType : LogType
  content : String
  details : Option WSEventData := none
  deriving DecidableEq

/-- The `ActivityLogEntry` that `addLogEntry` builds for a given input. -/
def LogInput.entry (e : LogInput) : ActivityLogEntry :=
  { id := e.meta.id, timestamp := e.meta.timestamp, entryType := e.entryType,
    content := e.content, details := e.details }

/-- A sequence of `addLogEntry` calls applied in order to a log buffer. -/
def applyLog (evs : List LogInput) (log : List ActivityLogEntry) :
    List ActivityLogEntry :=
  evs.foldl (fun l e => addLogEntry e.meta e.entryType e.content e.details l) log

/-- JS template-literal rendering of a possibly-absent string field: an
absent field renders as "undefined". -/
def jsTemplate (o : Option String) : String :=
  match o with
  | some v => v
  | none => "undefined"

/-- The `useState` variables of the hook that the message handler and the
poll fetch mutate (lines 52-59 of useExecutionStatus.ts); `isConnected`
lives in `ClientState`. -/
structure AppState where
  status : Option ExecutionStatus
  progress : Option SessionProgress
  agents : List AgentExecution
  plan : Option Plan
  activityLog : List ActivityLogEntry
  isLoading : Bool
  error : Option String
  deriving DecidableEq

/-- The argument of the message handler after `JSON.parse`: either the parse
threw (`malformed`) or produced an envelope (`parsed`). -/
inductive RawMessage where
  | malformed (text : String)
  | parsed (event : WSEvent)
  deriving DecidableEq

/-- Mirrors `handleWebSocketMessage` (lines 80-185 of useExecutionStatus.ts):
a parse failure is caught and logged to the console, leaving the state
unchanged; otherwise the envelope is dispatched on its `type` exactly as the
`switch` does, with no `default` case. -/
def handleWebSocketMessage (meta : LogMeta) (msg : RawMessage) (s : AppState) :
    AppState :=
  match msg with
  | RawMessage.malformed _ => s
  | RawMessage.parsed d =>
    if d.type = "session.started" then
      { s with activityLog := addLogEntry meta LogType.message "Research session started" (some d.data) s.activityLog }
    else if d.type = "phase.changed" then
      { s with activityLog := addLogEntry meta LogType.phase ("Phase changed to " ++ jsTemplate d.data.phase) (some d.data) s.activityLog }
    else if d.type = "agent.started" then
      { s with activityLog := addLogEntry meta LogType.agent ("Agent " ++ jsTemplate d.data.agent ++ " started") (some d.data) s.activityLog }
    else if d.type = "agent.progress" then
      { s with status := s.status.map (fun st => { st with active_agent := d.data.agent, progress := d.data.progressValue }) }
    else if d.type = "agent.completed" then
      { s with activityLog := addLogEntry meta LogType.agent ("Agent " ++ jsTemplate d.data.agent ++ " completed") (some d.data) s.activityLog }
    else if d.type = "tool.invoked" then
      { s with activityLog := addLogEntry meta LogType.tool ("Tool " ++ jsTemplate d.data.tool ++ " invoked") (some d.data) s.activityLog }
    else if d.type = "tool.completed" then
      { s with activityLog := addLogEntry meta LogType.tool ("Tool " ++ jsTemplate d.data.tool ++ " completed") (some d.data) s.activityLog }
    else if d.type = "plan.created" then
      { s with plan := d.data.plan, activityLog := addLogEntry meta LogType.message "Research plan created" (some d.data) s.activityLog }
    else if d.type = "session.completed" then
      { s with activityLog := addLogEntry meta LogType.complete "Research completed" (some d.data) s.activityLog }
    else if d.type = "session.error" then
      { s with error := d.data.error, activityLog := addLogEntry meta LogType.error ("Error: " ++ jsTemplate d.data.error) (some d.data) s.activityLog }
    else if d.type = "status.update" then
      match d.data.status with
      | some st => { s with status := some st }
      | none => s
    else s

/-- A control frame the client writes to the socket
(`ws.send(JSON.stringify(...))`). -/
inductive ControlSend where
  | ping
  | pong
  deriving DecidableEq

/-- Mirrors `ws.onmessage` (lines 288-303 of useExecutionStatus.ts): a
message that parses to type `ping` or `pong` is consumed (a `ping` is
answered with a `pong` when the socket is open) and everything else goes to
`handleWebSocketMessage`. Returns the new state and the frames sent. -/
def wsOnMessage (meta : LogMeta) (wsOpen : Bool) (msg : RawMessage)
    (s : AppState) : AppState × List ControlSend :=
  match msg with
  | RawMessage.parsed d =>
      if d.type = "pong" ∨ d.type = "ping" then
        (s, if d.type = "ping" ∧ wsOpen = true then [ControlSend.pong] else [])
      else
        (handleWebSocketMessage meta msg s, [])
  | RawMessage.malformed _ => (handleWebSocketMessage meta msg s, [])

/-- The outcome of the four parallel endpoint fetches of `fetchData`
(lines 193-198): either all promises resolved (each getter already maps its
own HTTP/network failures to `null` or `[]`), or the awaited combination
threw. -/
inductive FetchOutcome where
  | success (statusData : Option ExecutionStatus)
      (progressData : Option SessionProgress)
      (agentsData : List AgentExecution) (planData : Option Plan)
  | failure
  deriving DecidableEq

/-- Mirrors `fetchData` (lines 188-211 of useExecutionStatus.ts) for a
non-null session id: on success each truthy result is stored, `agents` is
replaced unconditionally, and `setError(null)` runs; on a throw the catch
sets the fixed error string; the `finally` clears `isLoading` either way. -/
def fetchData (res : FetchOutcome) (s : AppState) : AppState :=
  match res with
  | FetchOutcome.success statusData progressData agentsData planData =>
      { s with
        status := if statusData.isSome then statusData else s.status,
        progress := if progressData.isSome then progressData else s.progress,
        agents := agentsData,
        plan := if planData.isSome then planData else s.plan,
        error := none,
        isLoading := false }
  | FetchOutcome.failure =>
      { s with error := some "Failed to fetch status", isLoading := false }

/-- The hook's connection-layer state: the `useState` application state plus
the mutable refs of lines 61-65 — whether a (non-closed) socket object
exists (`wsRef`), whether the poll and ping intervals are set
(`pollIntervalRef`, `pingIntervalRef`), the reconnect counter
(`reconnectAttemptsRef`) and the pending reconnect timeout with its delay
(`reconnectTimeoutRef`). -/
structure ClientState where
  app : AppState
  isConnected : Bool
  pollActive : Bool
  pingActive : Bool
  reconnectAttempts : Nat
  reconnectDelay : Option Nat
  wsExists : Bool
  deriving DecidableEq

/-- Mirrors `ws.onopen` (lines 263-286 of useExecutionStatus.ts): mark
connected, reset the reconnect counter, log "Connected to execution stream",
clear the poll interval and (re)start the ping interval. -/
def onopenHandler (meta : LogMeta) (c : ClientState) : ClientState :=
  { c with
    isConnected := true,
    reconnectAttempts := 0,
    app := { c.app with activityLog := addLogEntry meta LogType.message "Connected to execution stream" none c.app.activityLog },
    pollActive := false,
    pingActive := true }

/-- Mirrors `ws.onclose` (lines 310-331 of useExecutionStatus.ts): mark
disconnected, clear the ping interval, restart polling if it is not running,
and — when the close code is not 1000 and the reconnect budget is not
exhausted — increment the counter and schedule `connectWebSocket` after
`WS_RECONNECT_DELAY * attempts` milliseconds. The closing socket no longer
exists afterwards. -/
def oncloseHandler (code : Nat) (c : ClientState) : ClientState :=
  let c1 : ClientState :=
    { c with isConnected := false, pingActive := false, pollActive := true,
             wsExists := false }
  if code ≠ 1000 ∧ c1.reconnectAttempts < WS_MAX_RECONNECT_ATTEMPTS then
    { c1 with
      reconnectAttempts := c1.reconnectAttempts + 1,
      reconnectDelay := some (WS_RECONNECT_DELAY * (c1.reconnectAttempts + 1)) }
  else c1

/-- Mirrors `connectWebSocket` (lines 252-261 of useExecutionStatus.ts):
an early return when the reconnect budget is exhausted, otherwise a new
socket object is created. -/
def connectWebSocket (c : ClientState) : ClientState :=
  if WS_MAX_RECONNECT_ATTEMPTS ≤ c.reconnectAttempts then c
  else { c with wsExists := true }

/-- The pending reconnect timeout firing (line 329): the timeout is consumed
and `connectWebSocket` runs. -/
def reconnectTimerFire (c : ClientState) : ClientState :=
  match c.reconnectDelay with
  | none => c
  | some _ => connectWebSocket { c with reconnectDelay := none }

/-- Mirrors `cleanup` (lines 228-245 of useExecutionStatus.ts), the detach
path: close the socket (with no status code — the second component is the
code the resulting `CloseEvent` will carry, `none` when no socket was open),
null the ref, and clear the poll, ping and reconnect timers. -/
def cleanup (c : ClientState) : ClientState × Option Nat :=
  if c.wsExists then
    ({ c with wsExists := false, pollActive := false, pingActive := false,
              reconnectDelay := none },
     some WS_CLOSE_NO_STATUS)
  else
    ({ c with pollActive := false, pingActive := false,
              reconnectDelay := none },
     none)

/-- An event delivered to the attached hook instance: a socket callback, a
timer firing, or an incoming message. -/
inductive ClientEvent where
  | wsOpened (meta : LogMeta)
  | wsClosed (code : Nat)
  | wsErrored
  | reconnectFired
  | pollFired (res : FetchOutcome)
  | wsMessage (meta : LogMeta) (wsOpen : Bool) (msg : RawMessage)
  deriving DecidableEq

/-- One step of the connection-layer state machine: socket callbacks only
fire while a socket object exists, the poll tick only while the poll
interval is set, and the reconnect timeout only while it is pending. -/
def step (c : ClientState) (ev : ClientEvent) : ClientState :=
  match ev with
  | ClientEvent.wsOpened meta => if c.wsExists then onopenHandler meta c else c
  | ClientEvent.wsClosed code => if c.wsExists then oncloseHandler code c else c
  | ClientEvent.wsErrored =>
      if c.wsExists then { c with isConnected := false } else c
  | ClientEvent.reconnectFired => reconnectTimerFire c
  | ClientEvent.pollFired res =>
      if c.pollActive then { c with app := fetchData res c.app } else c
  | ClientEvent.wsMessage meta wsOpen msg =>
      if c.wsExists then { c with app := (wsOnMessage meta wsOpen msg c.app).1 }
      else c

/-- The degraded terminal regime: the reconnect budget is exhausted, no
socket exists, no reconnect is pending, and the poll timer runs. -/
def PollingOnly (c : ClientState) : Prop :=
  WS_MAX_RECONNECT_ATTEMPTS ≤ c.reconnectAttempts ∧ c.wsExists = false ∧
  c.reconnectDelay = none ∧ c.pollActive = true

/-- The eleven envelope types of the event catalog (spec section 4.2), as
dispatched by the handler's `switch`. -/
def catalogEventTypes : List String :=
  ["session.started", "phase.changed", "agent.started", "agent.progress",
   "agent.completed", "tool.invoked", "tool.completed", "plan.created",
   "session.completed", "session.error", "status.update"]

/-- The catalog types whose `switch` case calls `addLogEntry` — all of them
except `agent.progress` and `status.update`. -/
def loggingEventTypes : List String :=
  ["session.started", "phase.changed", "agent.started", "agent.completed",
   "tool.invoked", "tool.completed", "plan.created", "session.completed",
   "session.error"]

/-- Sample environment-generated log metadata. -/
def metaW : LogMeta := { id := "1700000000000-a1b2c3d4e", timestamp := 1700000000000 }

/-- The freshly mounted hook's application state (lines 52-59: all state
starts empty). -/
def emptyApp : AppState :=
  { status := none, progress := none, agents := [], plan := none,
    activityLog := [], isLoading := false, error := none }

/-- A sample authoritative status snapshot sitting in the planning phase. -/
def statusPlanning : ExecutionStatus :=
  { session_id := "s1", current_phase := "planning", progress := some 0,
    active_agent := none, active_tools := [], plan := none,
    plan_approval_status := "pending", plan_waiting_approval := true,
    started_at := "t0", updated_at := "t0", completed_at := none,
    error := none, messages := [], phase_progress := [],
    estimated_completion := none }

/-- An application state already seeded with `statusPlanning`. -/
def statePlanning : AppState := { emptyApp with status := some statusPlanning }

/-- A `phase.changed` envelope carrying the phase "coding". -/
def phaseChangedEvt : WSEvent :=
  { type := "phase.changed", session_id := "s1",
    data := { phase := some "coding" }, timestamp := "t1" }

/-- An `agent.progress` envelope. -/
def agentProgressEvt : WSEvent :=
  { type := "agent.progress", session_id := "s1",
    data := { agent := some "researcher", progressValue := some 50 },
    timestamp := "t1" }

/-- A `tool.invoked` envelope. -/
def toolInvokedEvt : WSEvent :=
  { type := "tool.invoked", session_id := "s1",
    data := { tool := some "web_search" }, timestamp := "t1" }

/-- A `session.error` envelope. -/
def sessionErrorEvt : WSEvent :=
  { type := "session.error", session_id := "s1",
    data := { error := some "provider unavailable" }, timestamp := "t1" }

/-- A `ping` control envelope. -/
def pingEvt : WSEvent :=
  { type := "ping", session_id := "s1", data := {}, timestamp := "t1" }

/-- An envelope whose type is outside the catalog and not a control frame. -/
def unknownEvt : WSEvent :=
  { type := "connection.established", session_id := "s1", data := {},
    timestamp := "t1" }

/-- A sample log-producing input. -/
def logInput0 : LogInput :=
  { meta := metaW, entryType := LogType.message, content := "x" }

/-- A sequence of 101 log-producing events. -/
def evs101 : List LogInput := List.replicate 101 logInput0

/-- A connected client that has already made two reconnect attempts. -/
def clientTwoAttempts : ClientState :=
  { app := emptyApp, isConnected := true, pollActive := false,
    pingActive := true, reconnectAttempts := 2, reconnectDelay := none,
    wsExists := true }

/-- A freshly connected client with no reconnect attempts made. -/
def clientConnected : ClientState :=
  { app := emptyApp, isConnected := true, pollActive := false,
    pingActive := true, reconnectAttempts := 0, reconnectDelay := none,
    wsExists := true }

theorem take_append_take {α : Type} (a b : List α) (n : Nat) :
    (a ++ b.take n).take n = (a ++ b).take n := by
  rw [List.take_append_eq_append_take, List.take_append_eq_append_take,
    List.take_take, Nat.min_eq_left (Nat.sub_le n a.length)]

theorem applyLog_cons (e : LogInput) (es : List LogInput)
    (log : List ActivityLogEntry) :
    applyLog (e :: es) log
      = applyLog es (addLogEntry e.meta e.entryType e.content e.details log) :=
  rfl

theorem addLogEntry_eq_take (e : LogInput) (log : List ActivityLogEntry) :
    addLogEntry e.meta e.entryType e.content e.details log
      = (e.entry :: log).take 100 := by
  rw [show (100 : Nat) = 99 + 1 from rfl, List.take_succ_cons]
  rfl

theorem applyLog_eq_take (evs : List LogInput) (log : List ActivityLogEntry)
    (h : evs ≠ []) :
    applyLog evs log = ((evs.map LogInput.entry).reverse ++ log).take 100 := by
  induction evs generalizing log with
  | nil => exact absurd rfl h
  | cons e rest ih =>
    cases rest with
    | nil =>
      rw [applyLog_cons, addLogEntry_eq_take]
      simp [applyLog]
    | cons e2 rest2 =>
      rw [applyLog_cons, ih _ (by simp), addLogEntry_eq_take, take_append_take]
      simp [List.append_assoc]

/-- C1: after any sequence of more than 100 events logged through
`addLogEntry`, the activity log has length exactly 100 and consists of
exactly the 100 most recently logged entries, newest first (the reverse of
the tail of the event sequence), the older entries having been discarded. -/
theorem log_buffer_bounded_newest_first (evs : List LogInput)
    (init : List ActivityLogEntry) (h : 100 < evs.length) :
    (applyLog evs init).length = 100 ∧
    applyLog evs init = (evs.map LogInput.entry).reverse.take 100 := by
  have hne : evs ≠ [] := by
    intro he
    rw [he] at h
    simp at h
  have hlen : 100 ≤ ((evs.map LogInput.entry).reverse).length := by
    simp
    omega
  rw [applyLog_eq_take evs init hne, List.take_append_of_le_length hlen]
  refine ⟨?_, rfl⟩
  rw [List.length_take]
  simp
  omega

/-- C1 witness: a concrete sequence of 101 events satisfies the hypothesis
and the conclusion. -/
theorem log_buffer_bounded_newest_first_witness :
    100 < evs101.length ∧
    ((applyLog evs101 []).length = 100 ∧
      applyLog evs101 [] = (evs101.map LogInput.entry).reverse.take 100) :=
  ⟨by simp [evs101], log_buffer_bounded_newest_first evs101 [] (by simp [evs101])⟩

/-- C2 counterexample: on a `phase.changed` envelope carrying phase
"coding", the handler leaves the locally held status — in particular its
`current_phase`, still "planning" — completely unchanged, contrary to the
claim that it updates `current_phase` to the carried phase. -/
theorem phase_changed_claim_counterexample :
    phaseChangedEvt.type = "phase.changed" ∧
    phaseChangedEvt.data.phase = some "coding" ∧
    (handleWebSocketMessage metaW (RawMessage.parsed phaseChangedEvt)
        statePlanning).status = some statusPlanning ∧
    statusPlanning.current_phase = "planning" ∧
    ("planning" : String) ≠ "coding" :=
  ⟨rfl, rfl, rfl, rfl, by decide⟩

/-- C2 amended: on every `phase.changed` envelope the handler prepends a
log entry of type `phase` whose content names the carried phase, but does
not touch the locally held status (its `current_phase` field included). -/
theorem phase_changed_appends_log_only (meta : LogMeta) (d : WSEvent)
    (s : AppState) (h : d.type = "phase.changed") :
    (handleWebSocketMessage meta (RawMessage.parsed d) s).activityLog
      = mkLogEntry meta LogType.phase
          ("Phase changed to " ++ jsTemplate d.data.phase) (some d.data)
          :: s.activityLog.take 99 ∧
    (handleWebSocketMessage meta (RawMessage.parsed d) s).status = s.status := by
  unfold handleWebSocketMessage
  simp [h, addLogEntry]

/-- C2 witness: the amended statement evaluated on a concrete
`phase.changed` envelope. -/
theorem phase_changed_appends_log_only_witness :
    phaseChangedEvt.type = "phase.changed" ∧
    ((handleWebSocketMessage metaW (RawMessage.parsed phaseChangedEvt)
        statePlanning).activityLog
      = mkLogEntry metaW LogType.phase
          ("Phase changed to " ++ jsTemplate phaseChangedEvt.data.phase)
          (some phaseChangedEvt.data) :: statePlanning.activityLog.take 99 ∧
    (handleWebSocketMessage metaW (RawMessage.parsed phaseChangedEvt)
        statePlanning).status = statePlanning.status) :=
  ⟨rfl, phase_changed_appends_log_only metaW phaseChangedEvt statePlanning rfl⟩

/-- C3 counterexample: an `agent.progress` envelope is applied to local
state (the status gains the carried agent and progress) yet nothing is
prepended to the activity log, contrary to the claim that every applied
catalog envelope — `agent.progress` included — is logged. -/
theorem applied_event_log_counterexample :
    agentProgressEvt.type = "agent.progress" ∧
    (handleWebSocketMessage metaW (RawMessage.parsed agentProgressEvt)
        statePlanning).status
      = some { statusPlanning with active_agent := some "researcher",
                                   progress := some 50 } ∧
    (handleWebSocketMessage metaW (RawMessage.parsed agentProgressEvt)
        statePlanning).activityLog = [] :=
  ⟨rfl, rfl, rfl⟩

/-- C3 amended: every incoming non-ping/pong catalog envelope except
`agent.progress` and `status.update` has an entry prepended to the activity
log, which is capped at 100 entries (the previous list is truncated to its
first 99); `agent.progress` and `status.update` are applied without
touching the log. -/
theorem applied_events_log_policy (meta : LogMeta) (d : WSEvent)
    (s : AppState) :
    (d.type ∈ loggingEventTypes →
      ∃ e : ActivityLogEntry, e.id = meta.id ∧ e.timestamp = meta.timestamp ∧
        (handleWebSocketMessage meta (RawMessage.parsed d) s).activityLog
          = e :: s.activityLog.take 99) ∧
    (d.type = "agent.progress" ∨ d.type = "status.update" →
      (handleWebSocketMessage meta (RawMessage.parsed d) s).activityLog
        = s.activityLog) := by
  constructor
  · intro h
    simp [loggingEventTypes] at h
    rcases h with h|h|h|h|h|h|h|h|h
    · exact ⟨mkLogEntry meta LogType.message "Research session started"
        (some d.data), rfl, rfl,
        by unfold handleWebSocketMessage; simp [h, addLogEntry]⟩
    · exact ⟨mkLogEntry meta LogType.phase
        ("Phase changed to " ++ jsTemplate d.data.phase) (some d.data), rfl, rfl,
        by unfold handleWebSocketMessage; simp [h, addLogEntry]⟩
    · exact ⟨mkLogEntry meta LogType.agent
        ("Agent " ++ jsTemplate d.data.agent ++ " started") (some d.data),
        rfl, rfl, by unfold handleWebSocketMessage; simp [h, addLogEntry]⟩
    · exact ⟨mkLogEntry meta LogType.agent
        ("Agent " ++ jsTemplate d.data.agent ++ " completed") (some d.data),
        rfl, rfl, by unfold handleWebSocketMessage; simp [h, addLogEntry]⟩
    · exact ⟨mkLogEntry meta LogType.tool
        ("Tool " ++ jsTemplate d.data.tool ++ " invoked") (some d.data),
        rfl, rfl, by unfold handleWebSocketMessage; simp [h, addLogEntry]⟩
    · exact ⟨mkLogEntry meta LogType.tool
        ("Tool " ++ jsTemplate d.data.tool ++ " completed") (some d.data),
        rfl, rfl, by unfold handleWebSocketMessage; simp [h, addLogEntry]⟩
    · exact ⟨mkLogEntry meta LogType.message "Research plan created"
        (some d.data), rfl, rfl,
        by unfold handleWebSocketMessage; simp [h, addLogEntry]⟩
    · exact ⟨mkLogEntry meta LogType.complete "Research completed"
        (some d.data), rfl, rfl,
        by unfold handleWebSocketMessage; simp [h, addLogEntry]⟩
    · exact ⟨mkLogEntry meta LogType.error
        ("Error: " ++ jsTemplate d.data.error) (some d.data), rfl, rfl,
        by unfold handleWebSocketMessage; simp [h, addLogEntry]⟩
  · intro h
    rcases h with h|h
    · unfold handleWebSocketMessage
      simp [h]
    · unfold handleWebSocketMessage
      simp [h]
      cases hst : d.data.status <;> simp [hst]

/-- C3 witness: the amended statement evaluated on a concrete logging
envelope (`tool.invoked`) and a concrete non-logging one (`agent.progress`). -/
theorem applied_events_log_policy_witness :
    toolInvokedEvt.type ∈ loggingEventTypes ∧
    (∃ e : ActivityLogEntry, e.id = metaW.id ∧ e.timestamp = metaW.timestamp ∧
      (handleWebSocketMessage metaW (RawMessage.parsed toolInvokedEvt)
          statePlanning).activityLog
        = e :: statePlanning.activityLog.take 99) ∧
    (agentProgressEvt.type = "agent.progress" ∨
       agentProgressEvt.type = "status.update") ∧
    (handleWebSocketMessage metaW (RawMessage.parsed agentProgressEvt)
        statePlanning).activityLog = statePlanning.activityLog :=
  ⟨by decide,
   (applied_events_log_policy metaW toolInvokedEvt statePlanning).1 (by decide),
   Or.inl rfl,
   (applied_events_log_policy metaW agentProgressEvt statePlanning).2 (Or.inl rfl)⟩

/-- C7: an envelope that parses with type `ping` or `pong` never reaches the
application-state handler — the state is returned unchanged — and a `ping`
received while the socket is open is answered with exactly one `pong`. -/
theorem ping_pong_consumed_internally (meta : LogMeta) (wsOpen : Bool)
    (d : WSEvent) (s : AppState) (h : d.type = "ping" ∨ d.type = "pong") :
    (wsOnMessage meta wsOpen (RawMessage.parsed d) s).1 = s ∧
    (d.type = "ping" → wsOpen = true →
      (wsOnMessage meta wsOpen (RawMessage.parsed d) s).2 = [ControlSend.pong]) := by
  unfold wsOnMessage
  rcases h with h | h <;> simp [h]

/-- C7 witness: a concrete `ping` on an open socket. -/
theorem ping_pong_consumed_internally_witness :
    (pingEvt.type = "ping" ∨ pingEvt.type = "pong") ∧
    ((wsOnMessage metaW true (RawMessage.parsed pingEvt) emptyApp).1
        = emptyApp ∧
      (pingEvt.type = "ping" → true = true →
        (wsOnMessage metaW true (RawMessage.parsed pingEvt) emptyApp).2
          = [ControlSend.pong])) :=
  ⟨Or.inl rfl,
   ping_pong_consumed_internally metaW true pingEvt emptyApp (Or.inl rfl)⟩

/-- C8: a push message whose payload fails to parse as JSON is dropped: the
message handling returns normally (both parse attempts are wrapped in
try/catch, modelled by the total `malformed` branch) with the local state
unchanged and nothing sent. -/
theorem malformed_message_dropped (meta : LogMeta) (wsOpen : Bool)
    (text : String) (s : AppState) :
    wsOnMessage meta wsOpen (RawMessage.malformed text) s = (s, []) :=
  rfl

/-- C10: an envelope that parses but whose type is outside the eleven-entry
catalog (and is not `ping`/`pong`) is silently ignored: the state is
unchanged and nothing is sent. -/
theorem unknown_type_silently_ignored (meta : LogMeta) (wsOpen : Bool)
    (d : WSEvent) (s : AppState) (hcat : d.type ∉ catalogEventTypes)
    (hping : d.type ≠ "ping") (hpong : d.type ≠ "pong") :
    wsOnMessage meta wsOpen (RawMessage.parsed d) s = (s, []) := by
  simp [catalogEventTypes, not_or] at hcat
  obtain ⟨h1, h2, h3, h4, h5, h6, h7, h8, h9, h10, h11⟩ := hcat
  unfold wsOnMessage handleWebSocketMessage
  simp [h1, h2, h3, h4, h5, h6, h7, h8, h9, h10, h11, hping, hpong]

/-- C10 witness: a concrete out-of-catalog envelope. -/
theorem unknown_type_silently_ignored_witness :
    unknownEvt.type ∉ catalogEventTypes ∧ unknownEvt.type ≠ "ping" ∧
    unknownEvt.type ≠ "pong" ∧
    wsOnMessage metaW true (RawMessage.parsed unknownEvt) statePlanning
      = (statePlanning, []) :=
  ⟨by decide, by decide, by decide,
   unknown_type_silently_ignored metaW true unknownEvt statePlanning
     (by decide) (by decide) (by decide)⟩

/-- C4: on a non-clean close (code ≠ 1000) with n reconnect attempts already
made and n < 5, the close handler increments the counter and schedules a
reconnect after a linearly growing backoff of 3000·(n+1) ms; once the budget
of 5 is exhausted the handler schedules nothing, `connectWebSocket` early
returns without creating a socket, and the degraded polling-only regime is
preserved by every subsequent event for the life of the attachment. -/
theorem reconnect_backoff_and_permanent_polling (c : ClientState) (code : Nat)
    (hcode : code ≠ 1000) :
    (c.reconnectAttempts < WS_MAX_RECONNECT_ATTEMPTS →
      (oncloseHandler code c).reconnectAttempts = c.reconnectAttempts + 1 ∧
      (oncloseHandler code c).reconnectDelay
        = some (WS_RECONNECT_DELAY * (c.reconnectAttempts + 1))) ∧
    (WS_MAX_RECONNECT_ATTEMPTS ≤ c.reconnectAttempts →
      (oncloseHandler code c).reconnectDelay = c.reconnectDelay ∧
      (oncloseHandler code c).reconnectAttempts = c.reconnectAttempts ∧
      (oncloseHandler code c).pollActive = true ∧
      connectWebSocket c = c) ∧
    (∀ c' : ClientState, PollingOnly c' →
      ∀ ev : ClientEvent, PollingOnly (step c' ev)) := by
  refine ⟨?_, ?_, ?_⟩
  · intro hn
    unfold oncloseHandler
    simp [hcode, hn]
  · intro hn
    have hnot : ¬ c.reconnectAttempts < WS_MAX_RECONNECT_ATTEMPTS := by omega
    unfold oncloseHandler connectWebSocket
    simp [hcode, hnot, hn]
  · intro c' hp ev
    obtain ⟨h1, h2, h3, h4⟩ := hp
    cases ev <;>
      simp [step, reconnectTimerFire, PollingOnly, h2, h3, h4] <;>
      exact h1

/-- C4 witness: a non-clean close with code 1006 on a client that has made
two attempts schedules the third attempt after 9000 ms. -/
theorem reconnect_backoff_and_permanent_polling_witness :
    (1006 : Nat) ≠ 1000 ∧
    clientTwoAttempts.reconnectAttempts < WS_MAX_RECONNECT_ATTEMPTS ∧
    ((oncloseHandler 1006 clientTwoAttempts).reconnectAttempts
        = clientTwoAttempts.reconnectAttempts + 1 ∧
      (oncloseHandler 1006 clientTwoAttempts).reconnectDelay
        = some (WS_RECONNECT_DELAY * (clientTwoAttempts.reconnectAttempts + 1))) :=
  ⟨by decide, by decide,
   (reconnect_backoff_and_permanent_polling clientTwoAttempts 1006
       (by decide)).1 (by decide)⟩

/-- C5: the code deviates from this claim. On detach, `cleanup` does cancel
the poll, ping and reconnect timers, but it closes the socket with
`close()` and no status code, so the close event that subsequently fires on
the still-installed handler carries code 1005 — not the clean code 1000 —
and that handler then restarts the poll interval and schedules a reconnect
attempt after 3000 ms. -/
theorem detach_close_schedules_reconnect :
    (cleanup clientConnected).2 = some WS_CLOSE_NO_STATUS ∧
    WS_CLOSE_NO_STATUS ≠ 1000 ∧
    ((cleanup clientConnected).1.pollActive = false ∧
      (cleanup clientConnected).1.pingActive = false ∧
      (cleanup clientConnected).1.reconnectDelay = none) ∧
    (oncloseHandler WS_CLOSE_NO_STATUS
        (cleanup clientConnected).1).reconnectDelay = some WS_RECONNECT_DELAY ∧
    (oncloseHandler WS_CLOSE_NO_STATUS
        (cleanup clientConnected).1).pollActive = true := by
  decide

/-- C6: the open callback stops the poll timer, resets the reconnect-attempt
counter to exactly 0, and starts the keep-alive ping loop, whose 25000 ms
interval is strictly less than the 30000 ms server idle timeout. -/
theorem open_resets_poll_ping_attempts (meta : LogMeta) (c : ClientState) :
    (onopenHandler meta c).pollActive = false ∧
    (onopenHandler meta c).reconnectAttempts = 0 ∧
    (onopenHandler meta c).pingActive = true ∧
    WS_PING_INTERVAL < SERVER_IDLE_TIMEOUT :=
  ⟨rfl, rfl, rfl, by decide⟩

/-- C9: a successful poll fetch always sets the error field to null — in
particular one that runs right after a `session.error` envelope stored its
error erases it — while a poll fetch that throws sets the fixed string
"Failed to fetch status". -/
theorem fetch_success_clears_error (s : AppState)
    (stD : Option ExecutionStatus) (prD : Option SessionProgress)
    (agD : List AgentExecution) (plD : Option Plan) (meta : LogMeta)
    (d : WSEvent) (hd : d.type = "session.error") :
    (fetchData (FetchOutcome.success stD prD agD plD) s).error = none ∧
    (fetchData FetchOutcome.failure s).error = some "Failed to fetch status" ∧
    (handleWebSocketMessage meta (RawMessage.parsed d) s).error = d.data.error ∧
    (fetchData (FetchOutcome.success stD prD agD plD)
        (handleWebSocketMessage meta (RawMessage.parsed d) s)).error = none := by
  refine ⟨rfl, rfl, ?_, rfl⟩
  unfold handleWebSocketMessage
  simp [hd]

/-- C9 witness: a concrete `session.error` envelope stores its error and the
next successful poll erases it; a failing poll stores the fixed string. -/
theorem fetch_success_clears_error_witness :
    sessionErrorEvt.type = "session.error" ∧
    ((fetchData (FetchOutcome.success none none [] none) statePlanning).error
        = none ∧
      (fetchData FetchOutcome.failure statePlanning).error
        = some "Failed to fetch status" ∧
      (handleWebSocketMessage metaW (RawMessage.parsed sessionErrorEvt)
          statePlanning).error = sessionErrorEvt.data.error ∧
      (fetchData (FetchOutcome.success none none [] none)
          (handleWebSocketMessage metaW (RawMessage.parsed sessionErrorEvt)
            statePlanning)).error = none) :=
  ⟨rfl, fetch_success_clears_error statePlanning none none [] none metaW
     sessionErrorEvt rfl⟩

end ResearchAgent
